import Mathlib

/-!
Shallow embedding of the `dyntamic` library (src/dyntamic/factory.py): the
`DyntamicFactory` class, which turns a JSON-Schema-shaped Python dictionary
into a pydantic model via `create_model`.

Schema dictionaries are embedded as structured terms over exactly the keys
the code reads: `title`, `type`, `required`, `properties`, `items`, `$ref`,
plus an association list `extra` for the remaining keys, among which the
code looks up the caller-supplied `ref_template` string to find the
definitions table (`json_schema.get(ref_template)`).  The embedding assumes
`ref_template` is distinct from the four reserved key names, which holds for
the default `"#/$defs/"` and any definitions-container key.

`create_model` itself belongs to the external pydantic framework and is
embedded as a constructor that packages the model name, the optional
`__base__` argument and the assembled field tuples, without interpreting
them further.  Python runtime exceptions the factory code itself can raise
are reified in `BuildError`, and the unbounded recursion of `_make_nested`
is made total with a fuel parameter: `BuildError.outOfFuel` marks exactly
the executions in which the Python original would still be recursing.
-/

/-- Target primitive types: the values of the Python class attribute
`DyntamicFactory.TYPES` (`str`, `list`, `bool`, `int`, `float`). -/
inductive Prim where
  | str
  | int
  | float
  | bool
  | list
deriving DecidableEq

/-- The `TYPES` dictionary of `DyntamicFactory`: maps a JSON Schema type
keyword to the target primitive; `none` models Python `dict.get` returning
`None` on an unrecognized keyword. -/
def TYPES : String → Option Prim
  | "string" => some Prim.str
  | "array" => some Prim.list
  | "boolean" => some Prim.bool
  | "integer" => some Prim.int
  | "float" => some Prim.float
  | "number" => some Prim.float
  | _ => none

/-- The compound lookup `TYPES.get(raw_fields[field].get('type'))`: a missing
`type` key (`None`) is not a key of `TYPES`, so it also yields `none`. -/
def typesGet : Option String → Option Prim
  | none => none
  | some s => TYPES s

/-- A property schema dictionary, restricted to the keys the factory reads:
`$ref`, `type` and `items` (the latter itself a property schema). -/
inductive PropSchema where
  | mk (ref : Option String) (ty : Option String) (items : Option PropSchema) : PropSchema

/-- Value of the `$ref` key (`none` when the key is absent). -/
def PropSchema.ref : PropSchema → Option String
  | .mk r _ _ => r

/-- Value of the `type` key (`none` when the key is absent). -/
def PropSchema.ty : PropSchema → Option String
  | .mk _ t _ => t

/-- Value of the `items` key (`none` when the key is absent). -/
def PropSchema.items : PropSchema → Option PropSchema
  | .mk _ _ i => i

/-- A schema dictionary as consumed by `DyntamicFactory.__init__`: the four
keys the constructor reads plus `extra`, the remaining key/value pairs, whose
values the code only ever uses as definitions tables (name-to-schema maps).
Order of `properties` is the Python dict insertion order. -/
inductive SchemaNode where
  | mk (title : Option String) (ty : Option String)
      (required : Option (List String))
      (properties : Option (List (String × PropSchema)))
      (extra : List (String × List (String × SchemaNode))) : SchemaNode

/-- The definitions table: the value found under the `ref_template` key. -/
abbrev Defs := List (String × SchemaNode)

/-- Value of the `title` key (`self.class_name`). -/
def SchemaNode.title : SchemaNode → Option String
  | .mk t _ _ _ _ => t

/-- Value of the `type` key (`self.class_type`, never used afterwards). -/
def SchemaNode.ty : SchemaNode → Option String
  | .mk _ y _ _ _ => y

/-- Value of the `required` key; `none` embeds Python's default `False` from
`json_schema.get('required', False)`. -/
def SchemaNode.required : SchemaNode → Option (List String)
  | .mk _ _ r _ _ => r

/-- Value of the `properties` key (`self.raw_fields`). -/
def SchemaNode.properties : SchemaNode → Option (List (String × PropSchema))
  | .mk _ _ _ p _ => p

/-- The remaining keys of the schema dictionary. -/
def SchemaNode.extra : SchemaNode → List (String × List (String × SchemaNode))
  | .mk _ _ _ _ e => e

/-- Value passed by the code as the `alias=` argument of `Field`: either a
string (the field name, passed in `_make_nested`) or, for primitive fields,
whatever `self.raw_fields.get('title')` returns, which is a property schema
when the schema happens to declare a property literally named `title`. -/
inductive AliasV where
  | s (val : String) : AliasV
  | propSchema (ps : PropSchema) : AliasV

/-- Runtime exceptions reachable in the factory code, plus the fuel marker.

* `noneIterable`: `for field in self.raw_fields` with `raw_fields = None`
  (schema without a `properties` key) raises `TypeError`.
* `noneUnionTypeError`: `Union[factory | None]` with `factory = None`
  (unrecognized type keyword on an optional field) raises `TypeError`,
  since `None | None` is not a valid type expression.
* `itemsNoneTypeError`: `'$ref' in items` with `items = None` (array
  property without an `items` key) raises `TypeError`.
* `defsNoneAttrError`: `self.definitions.get(...)` with `definitions = None`
  (schema without a `ref_template` key) raises `AttributeError`.
* `refMergeTypeError`: `{...} | self.definitions.get(model_name)` with a
  failed lookup merges a dict with `None` and raises `TypeError`.
* `outOfFuel`: the fuel of the embedding ran out; the Python code would
  still be recursing at this point. -/
inductive BuildError where
  | noneIterable
  | noneUnionTypeError
  | itemsNoneTypeError
  | defsNoneAttrError
  | refMergeTypeError
  | outOfFuel
deriving DecidableEq

mutual
/-- The `factory` value handed to `_make_field`: a primitive from `TYPES`, a
nested model from `_make_nested`, or `list[model]` for array-of-`$ref`. -/
inductive Factory where
  | prim (p : Prim) : Factory
  | model (m : PyModel) : Factory
  | listOf (m : PyModel) : Factory

/-- What `_make_field` stores in `self.model_fields[field]`: the annotation
type (`none` embeds Python `None` standing where a type belongs), whether the
annotation was wrapped as `Union[factory | None]`, the `default_factory=`
argument and the `alias=` argument of `Field`. -/
inductive FieldSpec where
  | mk (ann : Option Factory) (optional : Bool)
      (defaultFactory : Option Factory) (aliasArg : Option AliasV) : FieldSpec

/-- Result of a `create_model` call: name, the `__base__` argument (absent
when not passed; the base capability is abstracted to a token), and the
ordered field tuples. -/
inductive PyModel where
  | mk (name : Option String) (base : Option Nat)
      (fields : List (String × FieldSpec)) : PyModel
end

/-- Annotation component of a stored field. -/
def FieldSpec.ann : FieldSpec → Option Factory
  | .mk a _ _ _ => a

/-- Whether the stored annotation was wrapped as `Union[factory | None]`. -/
def FieldSpec.optional : FieldSpec → Bool
  | .mk _ o _ _ => o

/-- The `default_factory=` argument the code passed to `Field`. -/
def FieldSpec.defaultFactory : FieldSpec → Option Factory
  | .mk _ _ d _ => d

/-- The `alias=` argument the code passed to `Field`. -/
def FieldSpec.aliasArg : FieldSpec → Option AliasV
  | .mk _ _ _ a => a

/-- Name of a created model. -/
def PyModel.name : PyModel → Option String
  | .mk n _ _ => n

/-- The `__base__` argument of a created model. -/
def PyModel.base : PyModel → Option Nat
  | .mk _ b _ => b

/-- Field tuples of a created model. -/
def PyModel.fields : PyModel → List (String × FieldSpec)
  | .mk _ _ f => f

/-- The top-level result of `DyntamicFactory.make`: the final
`create_model(self.class_name, __base__=self._base_model, **model_fields)`. -/
structure ModelDef where
  name : Option String
  base : Option Nat
  fields : List (String × FieldSpec)

/-- The test `not self.required or field not in self.required` from
`_make_field`: `required` is falsy when the key was absent (`none`) or the
list is empty; otherwise membership decides. -/
def isOptional (required : Option (List String)) (field : String) : Bool :=
  match required with
  | none => true
  | some r => r.isEmpty || !(r.contains field)

/-- Embedding of `DyntamicFactory._make_field(factory, field, alias)`: on an
optional field the annotation is `Annotated[Union[factory | None], factory]`,
which raises `TypeError` when `factory` is `None`; on a required field the
annotation is `factory` itself, whatever it is.  Both branches store
`Field(default_factory=factory, alias=alias)`. -/
def mkField (required : Option (List String)) (factory : Option Factory)
    (field : String) (aliasArg : Option AliasV) : Except BuildError FieldSpec :=
  if isOptional required field then
    match factory with
    | none => .error .noneUnionTypeError
    | some f => .ok (FieldSpec.mk (some f) true factory aliasArg)
  else
    .ok (FieldSpec.mk factory false factory aliasArg)

/-- One iteration of the `for field in self.raw_fields` loop of `make`:
either an exception, a stored field, or — for an array property whose
`items` has no `$ref` — nothing at all (the code falls through both `if`s).
`nested` performs `_make_nested` for this factory's definitions table, and
`allProps` is `self.raw_fields`, consulted for the primitive-field alias
`self.raw_fields.get('title')`. -/
def procProp (nested : String → Except BuildError PyModel)
    (required : Option (List String)) (allProps : List (String × PropSchema))
    (field : String) (ps : PropSchema) : Except BuildError (Option FieldSpec) :=
  match PropSchema.ref ps with
  | some modelName =>
    (match nested modelName with
     | .error e => .error e
     | .ok m =>
       match mkField required (some (Factory.model m)) field (some (AliasV.s field)) with
       | .error e => .error e
       | .ok fs => .ok (some fs))
  | none =>
    match typesGet (PropSchema.ty ps) with
    | some Prim.list =>
      (match PropSchema.items ps with
       | none => .error .itemsNoneTypeError
       | some items =>
         match PropSchema.ref items with
         | some modelName =>
           (match nested modelName with
            | .error e => .error e
            | .ok m =>
              match mkField required (some (Factory.listOf m)) field (some (AliasV.s field)) with
              | .error e => .error e
              | .ok fs => .ok (some fs))
         | none => .ok none)
    | fac =>
      match mkField required (Option.map Factory.prim fac) field
          (Option.map AliasV.propSchema (List.lookup "title" allProps)) with
      | .error e => .error e
      | .ok fs => .ok (some fs)

/-- The whole property loop of `make`, accumulating `self.model_fields` in
iteration order.  An exception aborts the loop at the offending property. -/
def makeLoop (nested : String → Except BuildError PyModel)
    (required : Option (List String)) (allProps : List (String × PropSchema)) :
    List (String × PropSchema) → Except BuildError (List (String × FieldSpec))
  | [] => .ok []
  | (field, ps) :: rest =>
    match procProp nested required allProps field ps with
    | .error e => .error e
    | .ok none => makeLoop nested required allProps rest
    | .ok (some fs) =>
      match makeLoop nested required allProps rest with
      | .error e => .error e
      | .ok tl => .ok ((field, fs) :: tl)

/-- Fuel-zero behaviour of `_make_nested`: the two lookups still happen (they
precede any recursion), after which the embedding stops. -/
def makeNestedZero (d? : Option Defs) (modelName : String) :
    Except BuildError PyModel :=
  match d? with
  | none => .error .defsNoneAttrError
  | some d =>
    match List.lookup modelName d with
    | none => .error .refMergeTypeError
    | some _ => .error .outOfFuel

/-- Successor-fuel behaviour of `_make_nested(model_name, ...)`, with `recur`
the recursion at one unit less fuel.  The recursive factory is built on
`{self.ref_template: self.definitions} | self.definitions.get(model_name)`:
a right-biased dict merge, so the nested definitions table is the referenced
node's own `ref_template` entry when it has one, else the current table.
The nested `create_model(model_name, **level.model_fields)` passes no
`__base__`. -/
def makeNestedStep (rt : String)
    (recur : Option Defs → String → Except BuildError PyModel)
    (d? : Option Defs) (modelName : String) : Except BuildError PyModel :=
  match d? with
  | none => .error .defsNoneAttrError
  | some d =>
    match List.lookup modelName d with
    | none => .error .refMergeTypeError
    | some node =>
      match SchemaNode.properties node with
      | none => .error .noneIterable
      | some props =>
        match makeLoop
            (fun name =>
              recur (some ((List.lookup rt (SchemaNode.extra node)).getD d)) name)
            (SchemaNode.required node) props props with
        | .error e => .error e
        | .ok fields => .ok (PyModel.mk (some modelName) none fields)

/-- Embedding of `DyntamicFactory._make_nested`, totalised by fuel. -/
def makeNested (rt : String) (fuel : Nat) :
    Option Defs → String → Except BuildError PyModel :=
  Nat.rec (motive := fun _ => Option Defs → String → Except BuildError PyModel)
    makeNestedZero (fun _ ih => makeNestedStep rt ih) fuel

/-- Embedding of `DyntamicFactory(json_schema, base_model, ref_template).make()`:
the loop over `properties` with the definitions table found under the literal
`ref_template` key, finished by
`create_model(self.class_name, __base__=self._base_model, **model_fields)`. -/
def make (fuel : Nat) (base : Option Nat) (rt : String) (schema : SchemaNode) :
    Except BuildError ModelDef :=
  match SchemaNode.properties schema with
  | none => .error .noneIterable
  | some props =>
    match makeLoop (makeNested rt fuel (List.lookup rt (SchemaNode.extra schema)))
        (SchemaNode.required schema) props props with
    | .error e => .error e
    | .ok fields => .ok (ModelDef.mk (SchemaNode.title schema) base fields)

/-- The default `ref_template` argument of `DyntamicFactory.__init__`. -/
def refTemplateDefault : String := "#/$defs/"

/-- Fuel-zero unfolding of `makeNested`. -/
theorem makeNested_zero (rt : String) (d? : Option Defs) (name : String) :
    makeNested rt 0 d? name = makeNestedZero d? name := rfl

/-- Successor-fuel unfolding of `makeNested`. -/
theorem makeNested_succ (rt : String) (n : Nat) (d? : Option Defs) (name : String) :
    makeNested rt (n + 1) d? name = makeNestedStep rt (makeNested rt n) d? name := rfl

/-- A `$ref` name absent from the definitions table makes `_make_nested` merge
the template dict with `None`, i.e. raise the generic `TypeError`, at any
fuel (the failing lookup precedes all recursion). -/
theorem makeNested_lookup_none (rt : String) (fuel : Nat) (d : Defs) (name : String)
    (h : List.lookup name d = none) :
    makeNested rt fuel (some d) name = .error BuildError.refMergeTypeError := by
  cases fuel with
  | zero =>
    show makeNestedZero (some d) name = _
    simp [makeNestedZero, h]
  | succ n =>
    show makeNestedStep rt (makeNested rt n) (some d) name = _
    simp [makeNestedStep, h]

/-- The truthiness test of `_make_field` holds exactly when the field name is
absent from the `required` list whenever one is present. -/
theorem isOptional_iff (required : Option (List String)) (field : String) :
    isOptional required field = true ↔ ∀ r, required = some r → field ∉ r := by
  cases required with
  | none => simp [isOptional]
  | some r =>
    cases r with
    | nil => simp [isOptional]
    | cons a as =>
      simp [isOptional, List.contains, List.elem_iff]

/-- Inversion of a successful `_make_field`: the stored tuple records the
factory as both annotation and default factory, the optionality decision, and
the alias argument unchanged. -/
theorem mkField_ok {required : Option (List String)} {fac : Option Factory}
    {f : String} {al : Option AliasV} {fs : FieldSpec}
    (h : mkField required fac f al = .ok fs) :
    FieldSpec.ann fs = fac ∧ FieldSpec.optional fs = isOptional required f
    ∧ FieldSpec.defaultFactory fs = fac ∧ FieldSpec.aliasArg fs = al := by
  unfold mkField at h
  cases ho : isOptional required f with
  | false =>
    simp only [ho, Bool.false_eq_true, if_false] at h
    cases h
    simp [FieldSpec.ann, FieldSpec.optional, FieldSpec.defaultFactory, FieldSpec.aliasArg]
  | true =>
    simp only [ho, if_true] at h
    cases fac with
    | none => exact absurd h (by simp)
    | some f2 =>
      cases h
      simp [FieldSpec.ann, FieldSpec.optional, FieldSpec.defaultFactory, FieldSpec.aliasArg]

/-- Inversion of the error-propagating match around `mkField`. -/
theorem match_mkField_ok {required : Option (List String)} {fac : Option Factory}
    {f : String} {al : Option AliasV} {fs : FieldSpec}
    (h : (match mkField required fac f al with
          | .error e => (.error e : Except BuildError (Option FieldSpec))
          | .ok fs2 => .ok (some fs2)) = .ok (some fs)) :
    mkField required fac f al = .ok fs := by
  cases hm : mkField required fac f al with
  | error e => simp only [hm] at h; exact absurd h (by simp)
  | ok fs2 =>
    simp only [hm, Except.ok.injEq, Option.some.injEq] at h
    rw [h]

/-- Per-property inversion: whenever one loop iteration stores a field, the
stored tuple has the optionality decided by `isOptional` on this node's
`required`, a default factory identical to its annotation, and an alias that
is either the field's own name (the `$ref` and array-of-`$ref` paths) or
`self.raw_fields.get('title')` (the primitive path). -/
theorem procProp_ok_facts {nested : String → Except BuildError PyModel}
    {required : Option (List String)} {allProps : List (String × PropSchema)}
    {field : String} {ps : PropSchema} {fs : FieldSpec}
    (h : procProp nested required allProps field ps = .ok (some fs)) :
    FieldSpec.optional fs = isOptional required field
    ∧ FieldSpec.defaultFactory fs = FieldSpec.ann fs
    ∧ (FieldSpec.aliasArg fs = some (AliasV.s field)
       ∨ FieldSpec.aliasArg fs = Option.map AliasV.propSchema (List.lookup "title" allProps)) := by
  unfold procProp at h
  cases hr : PropSchema.ref ps with
  | some modelName =>
    simp only [hr] at h
    cases hn : nested modelName with
    | error e => simp only [hn] at h; exact absurd h (by simp)
    | ok m =>
      simp only [hn] at h
      have hm := match_mkField_ok h
      obtain ⟨h1, h2, h3, h4⟩ := mkField_ok hm
      exact ⟨h2, h3.trans h1.symm, Or.inl h4⟩
  | none =>
    simp only [hr] at h
    cases ht : typesGet (PropSchema.ty ps) with
    | none =>
      simp only [ht] at h
      have hm := match_mkField_ok h
      obtain ⟨h1, h2, h3, h4⟩ := mkField_ok hm
      exact ⟨h2, h3.trans h1.symm, Or.inr h4⟩
    | some p =>
      cases p with
      | str =>
        simp only [ht] at h
        have hm := match_mkField_ok h
        obtain ⟨h1, h2, h3, h4⟩ := mkField_ok hm
        exact ⟨h2, h3.trans h1.symm, Or.inr h4⟩
      | int =>
        simp only [ht] at h
        have hm := match_mkField_ok h
        obtain ⟨h1, h2, h3, h4⟩ := mkField_ok hm
        exact ⟨h2, h3.trans h1.symm, Or.inr h4⟩
      | float =>
        simp only [ht] at h
        have hm := match_mkField_ok h
        obtain ⟨h1, h2, h3, h4⟩ := mkField_ok hm
        exact ⟨h2, h3.trans h1.symm, Or.inr h4⟩
      | bool =>
        simp only [ht] at h
        have hm := match_mkField_ok h
        obtain ⟨h1, h2, h3, h4⟩ := mkField_ok hm
        exact ⟨h2, h3.trans h1.symm, Or.inr h4⟩
      | list =>
        simp only [ht] at h
        cases hi : PropSchema.items ps with
        | none => simp only [hi] at h; exact absurd h (by simp)
        | some items2 =>
          simp only [hi] at h
          cases hr2 : PropSchema.ref items2 with
          | none => simp only [hr2] at h; exact absurd h (by simp)
          | some modelName =>
            simp only [hr2] at h
            cases hn : nested modelName with
            | error e => simp only [hn] at h; exact absurd h (by simp)
            | ok m =>
              simp only [hn] at h
              have hm := match_mkField_ok h
              obtain ⟨h1, h2, h3, h4⟩ := mkField_ok hm
              exact ⟨h2, h3.trans h1.symm, Or.inl h4⟩

/-- Every field stored by the property loop satisfies the per-field facts of
`procProp_ok_facts`, for the `required` list and `raw_fields` of the node the
loop is running over. -/
theorem makeLoop_ok_mem_facts (nested : String → Except BuildError PyModel)
    (required : Option (List String)) (allProps : List (String × PropSchema)) :
    ∀ (props : List (String × PropSchema)) (fields : List (String × FieldSpec)),
      makeLoop nested required allProps props = .ok fields →
      ∀ (field : String) (fs : FieldSpec), (field, fs) ∈ fields →
        FieldSpec.optional fs = isOptional required field
        ∧ FieldSpec.defaultFactory fs = FieldSpec.ann fs
        ∧ (FieldSpec.aliasArg fs = some (AliasV.s field)
           ∨ FieldSpec.aliasArg fs = Option.map AliasV.propSchema (List.lookup "title" allProps)) := by
  intro props
  induction props with
  | nil =>
    intro fields h field fs hmem
    simp only [makeLoop, Except.ok.injEq] at h
    rw [← h] at hmem
    simp at hmem
  | cons q rest ih =>
    intro fields h field fs hmem
    obtain ⟨f, ps⟩ := q
    simp only [makeLoop] at h
    cases hp : procProp nested required allProps f ps with
    | error e => simp only [hp] at h; exact absurd h (by simp)
    | ok ofs =>
      cases ofs with
      | none =>
        simp only [hp] at h
        exact ih fields h field fs hmem
      | some fs2 =>
        simp only [hp] at h
        cases hl : makeLoop nested required allProps rest with
        | error e => simp only [hl] at h; exact absurd h (by simp)
        | ok tl =>
          simp only [hl, Except.ok.injEq] at h
          rw [← h] at hmem
          rcases List.mem_cons.mp hmem with heq | hmem2
          · injection heq with e1 e2
            subst e1
            subst e2
            exact procProp_ok_facts hp
          · exact ih tl hl field fs hmem2

/-- If the first property of the node referenced by `name` is a `$ref` whose
recursive construction fails, `_make_nested` propagates that exception. -/
theorem makeNestedStep_ref_error (rt : String)
    (recur : Option Defs → String → Except BuildError PyModel)
    (d : Defs) (name : String) (node : SchemaNode) (f r : String)
    (rest : List (String × PropSchema)) (e : BuildError)
    (h1 : List.lookup name d = some node)
    (h2 : SchemaNode.properties node = some ((f, PropSchema.mk (some r) none none) :: rest))
    (h3 : recur (some ((List.lookup rt (SchemaNode.extra node)).getD d)) r = .error e) :
    makeNestedStep rt recur (some d) name = .error e := by
  unfold makeNestedStep
  simp only [h1, h2, makeLoop, procProp, PropSchema.ref, h3]

/-- If the first property of the top-level schema is a `$ref` whose nested
construction fails, `make` propagates that exception. -/
theorem make_first_ref_error (fuel : Nat) (base : Option Nat) (rt : String)
    (schema : SchemaNode) (f r : String) (rest : List (String × PropSchema)) (e : BuildError)
    (h2 : SchemaNode.properties schema = some ((f, PropSchema.mk (some r) none none) :: rest))
    (h3 : makeNested rt fuel (List.lookup rt (SchemaNode.extra schema)) r = .error e) :
    make fuel base rt schema = .error e := by
  unfold make
  simp only [h2, makeLoop, procProp, PropSchema.ref, h3]

/-- Property schema that is just a `$ref` to `A`. -/
def psRefA : PropSchema := PropSchema.mk (some "A") none none

/-- Property schema that is just a `$ref` to `B`. -/
def psRefB : PropSchema := PropSchema.mk (some "B") none none

/-- Definition `A`, whose single property references `B`. -/
def defA : SchemaNode := SchemaNode.mk (some "A") (some "object") none (some [("b", psRefB)]) []

/-- Definition `B`, whose single property references `A`. -/
def defB : SchemaNode := SchemaNode.mk (some "B") (some "object") none (some [("a", psRefA)]) []

/-- A definitions table with the two-cycle `A -> B -> A`. -/
def cycDefs : Defs := [("A", defA), ("B", defB)]

/-- A schema whose single property references into the cyclic table. -/
def cycSchema : SchemaNode :=
  SchemaNode.mk (some "Cyc") (some "object") none (some [("x", psRefA)])
    [(refTemplateDefault, cycDefs)]

/-- On the cyclic table, `_make_nested` consumes every amount of fuel from
either entry point: the Python recursion never returns. -/
theorem cyc_pair (n : Nat) :
    makeNested refTemplateDefault n (some cycDefs) "A" = .error BuildError.outOfFuel
    ∧ makeNested refTemplateDefault n (some cycDefs) "B" = .error BuildError.outOfFuel := by
  induction n with
  | zero => exact ⟨rfl, rfl⟩
  | succ n ih =>
    refine ⟨?_, ?_⟩
    · show makeNestedStep refTemplateDefault (makeNested refTemplateDefault n)
        (some cycDefs) "A" = _
      exact makeNestedStep_ref_error refTemplateDefault (makeNested refTemplateDefault n)
        cycDefs "A" defA "b" "B" [] BuildError.outOfFuel rfl rfl ih.2
    · show makeNestedStep refTemplateDefault (makeNested refTemplateDefault n)
        (some cycDefs) "B" = _
      exact makeNestedStep_ref_error refTemplateDefault (makeNested refTemplateDefault n)
        cycDefs "B" defB "a" "A" [] BuildError.outOfFuel rfl rfl ih.1

/-- A recognized-primitive factory always makes it through `_make_field`. -/
theorem mkField_prim_ok (required : Option (List String)) (p : Prim)
    (f : String) (al : Option AliasV) :
    ∃ fs, mkField required (some (Factory.prim p)) f al = .ok fs := by
  unfold mkField
  cases ho : isOptional required f <;> simp [ho]

/-- A property with no `$ref` and a recognized non-array type keyword always
stores a field. -/
theorem procProp_prim_ok (nested : String → Except BuildError PyModel)
    (required : Option (List String)) (allProps : List (String × PropSchema))
    (f : String) (ps : PropSchema) (p : Prim)
    (h1 : PropSchema.ref ps = none) (h2 : typesGet (PropSchema.ty ps) = some p)
    (h3 : p ≠ Prim.list) :
    ∃ fs, procProp nested required allProps f ps = .ok (some fs) := by
  obtain ⟨fs, hfs⟩ := mkField_prim_ok required p f
    (Option.map AliasV.propSchema (List.lookup "title" allProps))
  unfold procProp
  cases p with
  | list => exact absurd rfl h3
  | str => simp only [h1, h2, Option.map_some']; rw [hfs]; exact ⟨fs, rfl⟩
  | int => simp only [h1, h2, Option.map_some']; rw [hfs]; exact ⟨fs, rfl⟩
  | float => simp only [h1, h2, Option.map_some']; rw [hfs]; exact ⟨fs, rfl⟩
  | bool => simp only [h1, h2, Option.map_some']; rw [hfs]; exact ⟨fs, rfl⟩

/-- Over a property list made only of recognized non-array primitives, the
loop succeeds and stores one field per property, in declaration order. -/
theorem makeLoop_all_prim_ok (nested : String → Except BuildError PyModel)
    (required : Option (List String)) (allProps : List (String × PropSchema)) :
    ∀ props : List (String × PropSchema),
      (∀ p ∈ props, PropSchema.ref p.2 = none
        ∧ ∃ t pr, PropSchema.ty p.2 = some t ∧ TYPES t = some pr ∧ pr ≠ Prim.list) →
      ∃ fields, makeLoop nested required allProps props = .ok fields
        ∧ fields.map Prod.fst = props.map Prod.fst := by
  intro props
  induction props with
  | nil => intro _; exact ⟨[], rfl, rfl⟩
  | cons q rest ih =>
    intro h
    obtain ⟨f, ps⟩ := q
    obtain ⟨h1, t, pr, ht, htp, hnl⟩ := h (f, ps) (List.mem_cons_self _ _)
    obtain ⟨fields, hl, hnames⟩ := ih (fun p hp => h p (List.mem_cons_of_mem _ hp))
    obtain ⟨fs, hfs⟩ := procProp_prim_ok nested required allProps f ps pr h1
      (by rw [ht]; simpa [typesGet] using htp) hnl
    refine ⟨(f, fs) :: fields, ?_, by simp [hnames]⟩
    simp only [makeLoop, hfs, hl]

mutual
/-- Whether every model occurring inside a factory value was created without
a `__base__` argument. -/
def factoryBaseNone : Factory → Bool
  | .prim _ => true
  | .model m => pyModelBaseNone m
  | .listOf m => pyModelBaseNone m

/-- Lifts `factoryBaseNone` through an optional factory. -/
def optFactoryBaseNone : Option Factory → Bool
  | none => true
  | some f => factoryBaseNone f

/-- Whether every model occurring inside a stored field was created without a
`__base__` argument. -/
def fieldBaseNone : FieldSpec → Bool
  | .mk ann _ df _ => optFactoryBaseNone ann && optFactoryBaseNone df

/-- Whether a created model and every model nested inside it were created
without a `__base__` argument. -/
def pyModelBaseNone : PyModel → Bool
  | .mk _ b fields => b.isNone && fieldsBaseNone fields

/-- Conjunction of `fieldBaseNone` over a field list. -/
def fieldsBaseNone : List (String × FieldSpec) → Bool
  | [] => true
  | (_, fs) :: rest => fieldBaseNone fs && fieldsBaseNone rest
end

/-- Unfolds `fieldBaseNone` through the accessors. -/
theorem fieldBaseNone_eq (fs : FieldSpec) :
    fieldBaseNone fs = (optFactoryBaseNone (FieldSpec.ann fs)
      && optFactoryBaseNone (FieldSpec.defaultFactory fs)) := by
  cases fs with
  | mk a o d al => simp [fieldBaseNone, FieldSpec.ann, FieldSpec.defaultFactory]

/-- If the nested constructor only ever returns base-free models, every field
a loop iteration stores contains only base-free models. -/
theorem procProp_basesNone {nested : String → Except BuildError PyModel}
    {required : Option (List String)} {allProps : List (String × PropSchema)}
    {field : String} {ps : PropSchema} {fs : FieldSpec}
    (hn : ∀ name m, nested name = .ok m → pyModelBaseNone m = true)
    (h : procProp nested required allProps field ps = .ok (some fs)) :
    fieldBaseNone fs = true := by
  unfold procProp at h
  cases hr : PropSchema.ref ps with
  | some modelName =>
    simp only [hr] at h
    cases hnn : nested modelName with
    | error e => simp only [hnn] at h; exact absurd h (by simp)
    | ok m =>
      simp only [hnn] at h
      have hm := match_mkField_ok h
      obtain ⟨h1, _, h3, _⟩ := mkField_ok hm
      rw [fieldBaseNone_eq, h1, h3]
      simp [optFactoryBaseNone, factoryBaseNone, hn modelName m hnn]
  | none =>
    simp only [hr] at h
    cases ht : typesGet (PropSchema.ty ps) with
    | none =>
      simp only [ht] at h
      have hm := match_mkField_ok h
      obtain ⟨h1, _, h3, _⟩ := mkField_ok hm
      rw [fieldBaseNone_eq, h1, h3]
      simp [optFactoryBaseNone]
    | some p =>
      cases p with
      | str =>
        simp only [ht] at h
        have hm := match_mkField_ok h
        obtain ⟨h1, _, h3, _⟩ := mkField_ok hm
        rw [fieldBaseNone_eq, h1, h3]
        simp [optFactoryBaseNone, factoryBaseNone]
      | int =>
        simp only [ht] at h
        have hm := match_mkField_ok h
        obtain ⟨h1, _, h3, _⟩ := mkField_ok hm
        rw [fieldBaseNone_eq, h1, h3]
        simp [optFactoryBaseNone, factoryBaseNone]
      | float =>
        simp only [ht] at h
        have hm := match_mkField_ok h
        obtain ⟨h1, _, h3, _⟩ := mkField_ok hm
        rw [fieldBaseNone_eq, h1, h3]
        simp [optFactoryBaseNone, factoryBaseNone]
      | bool =>
        simp only [ht] at h
        have hm := match_mkField_ok h
        obtain ⟨h1, _, h3, _⟩ := mkField_ok hm
        rw [fieldBaseNone_eq, h1, h3]
        simp [optFactoryBaseNone, factoryBaseNone]
      | list =>
        simp only [ht] at h
        cases hi : PropSchema.items ps with
        | none => simp only [hi] at h; exact absurd h (by simp)
        | some items2 =>
          simp only [hi] at h
          cases hr2 : PropSchema.ref items2 with
          | none => simp only [hr2] at h; exact absurd h (by simp)
          | some modelName =>
            simp only [hr2] at h
            cases hnn : nested modelName with
            | error e => simp only [hnn] at h; exact absurd h (by simp)
            | ok m =>
              simp only [hnn] at h
              have hm := match_mkField_ok h
              obtain ⟨h1, _, h3, _⟩ := mkField_ok hm
              rw [fieldBaseNone_eq, h1, h3]
              simp [optFactoryBaseNone, factoryBaseNone, hn modelName m hnn]

/-- If the nested constructor only ever returns base-free models, every field
list the loop returns contains only base-free models. -/
theorem makeLoop_basesNone (nested : String → Except BuildError PyModel)
    (required : Option (List String)) (allProps : List (String × PropSchema))
    (hn : ∀ name m, nested name = .ok m → pyModelBaseNone m = true) :
    ∀ (props : List (String × PropSchema)) (fields : List (String × FieldSpec)),
      makeLoop nested required allProps props = .ok fields →
      fieldsBaseNone fields = true := by
  intro props
  induction props with
  | nil =>
    intro fields h
    simp only [makeLoop, Except.ok.injEq] at h
    rw [← h]
    simp [fieldsBaseNone]
  | cons q rest ih =>
    intro fields h
    obtain ⟨f, ps⟩ := q
    simp only [makeLoop] at h
    cases hp : procProp nested required allProps f ps with
    | error e => simp only [hp] at h; exact absurd h (by simp)
    | ok ofs =>
      cases ofs with
      | none =>
        simp only [hp] at h
        exact ih fields h
      | some fs2 =>
        simp only [hp] at h
        cases hl : makeLoop nested required allProps rest with
        | error e => simp only [hl] at h; exact absurd h (by simp)
        | ok tl =>
          simp only [hl, Except.ok.injEq] at h
          rw [← h]
          simp [fieldsBaseNone, procProp_basesNone hn hp, ih tl hl]

/-- Every model `_make_nested` returns — at any fuel, for any table — carries
no `__base__`, and neither does any model nested inside it: the recursive
`create_model` calls never forward the factory's base capability. -/
theorem makeNested_basesNone (rt : String) :
    ∀ (fuel : Nat) (d? : Option Defs) (name : String) (m : PyModel),
      makeNested rt fuel d? name = .ok m → pyModelBaseNone m = true := by
  intro fuel
  induction fuel with
  | zero =>
    intro d? name m h
    have h2 : makeNestedZero d? name = .ok m := h
    unfold makeNestedZero at h2
    split at h2
    · exact absurd h2 (by simp)
    · split at h2
      · exact absurd h2 (by simp)
      · exact absurd h2 (by simp)
  | succ n ih =>
    intro d? name m h
    have h2 : makeNestedStep rt (makeNested rt n) d? name = .ok m := h
    unfold makeNestedStep at h2
    split at h2
    · exact absurd h2 (by simp)
    · rename_i d
      split at h2
      · exact absurd h2 (by simp)
      · rename_i node hlk
        split at h2
        · exact absurd h2 (by simp)
        · rename_i props hpr
          split at h2
          · exact absurd h2 (by simp)
          · rename_i fields hml
            simp only [Except.ok.injEq] at h2
            rw [← h2]
            simp only [pyModelBaseNone, Option.isNone, Bool.true_and]
            exact makeLoop_basesNone _ (SchemaNode.required node) props
              (fun name2 m2 hh => ih _ name2 m2 hh) props fields hml

/-- C1: the spec demands that a cyclic definitions table (A references B, B
references A) make `build` raise `CyclicReferenceError`; the code has no such
guard (nor any such exception class) and `_make_nested` simply recurses: on
the cyclic table the fuelled embedding exhausts every finite fuel, for every
base capability — the Python original recurses without bound until the
interpreter kills it. -/
theorem cyclic_refs_exhaust_all_fuel (fuel : Nat) (base : Option Nat) :
    make fuel base refTemplateDefault cycSchema = .error BuildError.outOfFuel :=
  make_first_ref_error fuel base refTemplateDefault cycSchema "x" "A" []
    BuildError.outOfFuel rfl ((cyc_pair fuel).1)

/-- Required-property schema with the unrecognized type keyword
`frobnicate`. -/
def unknownTyReq : SchemaNode :=
  SchemaNode.mk (some "M2") none (some ["x"])
    (some [("x", PropSchema.mk none (some "frobnicate") none)]) []

/-- C2 counterexample: on a schema whose single property is required and has
the unrecognized type `frobnicate`, `make` raises nothing at all: it returns
a model whose field annotation is Python `None` — a field with no usable
type — contradicting both the demanded `UnknownTypeError` and the demanded
absence of a model. -/
theorem unknown_type_silent_none_field :
    make 0 none refTemplateDefault unknownTyReq =
      .ok (ModelDef.mk (some "M2") none [("x", FieldSpec.mk none false none none)])
    ∧ FieldSpec.ann (FieldSpec.mk none false none none) = none :=
  ⟨rfl, rfl⟩

/-- C2 (amended): a property with an unrecognized type keyword reaches
`_make_field` with `factory = None`; if the property is optional the
evaluation of `Union[None | None]` raises a plain `TypeError` (not an
`UnknownTypeError`, which the code does not define), while if the property is
required no exception occurs and a field annotated with `None` is silently
stored in the produced model. -/
theorem unknown_type_behavior (fuel : Nat) (base : Option Nat) (rt : String)
    (title ty2 : Option String) (req : Option (List String)) (extra : List (String × Defs))
    (field t : String) (hty : TYPES t = none) :
    make fuel base rt (SchemaNode.mk title ty2 req
        (some [(field, PropSchema.mk none (some t) none)]) extra) =
      if isOptional req field then .error BuildError.noneUnionTypeError
      else .ok (ModelDef.mk title base [(field, FieldSpec.mk none false none
          (Option.map AliasV.propSchema
            (List.lookup "title" [(field, PropSchema.mk none (some t) none)])))]) := by
  unfold make
  simp only [SchemaNode.properties, SchemaNode.required, SchemaNode.extra, SchemaNode.title,
    makeLoop, procProp, PropSchema.ref, PropSchema.ty, typesGet, hty, Option.map_none']
  unfold mkField
  cases ho : isOptional req field with
  | true => simp [ho]
  | false => simp [ho]

/-- C2 witness: the amended behaviour at a concrete optional `frobnicate`
property. -/
theorem unknown_type_behavior_witness :
    make 0 none refTemplateDefault (SchemaNode.mk (some "M") none none
        (some [("x", PropSchema.mk none (some "frobnicate") none)]) []) =
      if isOptional none "x" then .error BuildError.noneUnionTypeError
      else .ok (ModelDef.mk (some "M") none [("x", FieldSpec.mk none false none
          (Option.map AliasV.propSchema
            (List.lookup "title" [("x", PropSchema.mk none (some "frobnicate") none)])))]) :=
  unknown_type_behavior 0 none refTemplateDefault (some "M") none none [] "x" "frobnicate" rfl

/-- Schema whose single property references a name absent from its (empty)
definitions table. -/
def missingRefSchema : SchemaNode :=
  SchemaNode.mk (some "M3") none none
    (some [("x", PropSchema.mk (some "Missing") none none)]) [(refTemplateDefault, [])]

/-- C3 counterexample: resolution failure is indeed never silent, but the
exception is not a dedicated `UnresolvedReferenceError` — no such class
exists in the code; what escapes is the plain `TypeError` from merging the
template dict with the `None` returned by the failed table lookup. -/
theorem missing_ref_generic_merge_error :
    make 0 none refTemplateDefault missingRefSchema = .error BuildError.refMergeTypeError :=
  rfl

/-- C3 (amended): a `$ref` whose name is absent from the definitions table
makes `_make_nested` evaluate `{ref_template: defs} | defs.get(name)` with a
`None` right operand, raising a plain `TypeError` (at any recursion depth,
since the lookup precedes recursion); the property is never silently
skipped, but the exception is generic, not an `UnresolvedReferenceError`. -/
theorem unresolved_ref_raises_merge_type_error (fuel : Nat) (rt : String)
    (d : Defs) (name : String) (h : List.lookup name d = none) :
    makeNested rt fuel (some d) name = .error BuildError.refMergeTypeError :=
  makeNested_lookup_none rt fuel d name h

/-- C3 witness: a concrete missing name in a concrete table. -/
theorem unresolved_ref_raises_merge_type_error_witness :
    makeNested refTemplateDefault 3 (some [("A", defA)]) "Missing" =
      .error BuildError.refMergeTypeError :=
  unresolved_ref_raises_merge_type_error 3 refTemplateDefault [("A", defA)] "Missing" rfl

/-- C4: a stored field is optional (its annotation was wrapped as
`Union[factory | None]`) exactly when its name is absent from the enclosing
node's `required` list — in particular, with no `required` entry at all the
condition on the right is vacuous and every field is optional.  Stated for
the property loop, which both `make` and `_make_nested` run with the
enclosing node's own `required`. -/
theorem field_optional_iff_absent_from_required
    (nested : String → Except BuildError PyModel) (required : Option (List String))
    (allProps props : List (String × PropSchema)) (fields : List (String × FieldSpec))
    (h : makeLoop nested required allProps props = .ok fields)
    (field : String) (fs : FieldSpec) (hmem : (field, fs) ∈ fields) :
    FieldSpec.optional fs = true ↔ (∀ r, required = some r → field ∉ r) := by
  rw [(makeLoop_ok_mem_facts nested required allProps props fields h field fs hmem).1]
  exact isOptional_iff required field

/-- Two recognized-primitive properties, `a` and `b`. -/
def propsAB : List (String × PropSchema) :=
  [("a", PropSchema.mk none (some "string") none),
   ("b", PropSchema.mk none (some "string") none)]

/-- The field the loop stores for the required property `a` of `propsAB`. -/
def fsReqA : FieldSpec :=
  FieldSpec.mk (some (Factory.prim Prim.str)) false (some (Factory.prim Prim.str)) none

/-- The field the loop stores for the optional property `b` of `propsAB`. -/
def fsOptB : FieldSpec :=
  FieldSpec.mk (some (Factory.prim Prim.str)) true (some (Factory.prim Prim.str)) none

/-- C4 witness: with `required = ["a"]`, field `b` is optional. -/
theorem field_optional_iff_absent_from_required_witness :
    FieldSpec.optional fsOptB = true
      ↔ (∀ r, (some ["a"] : Option (List String)) = some r → "b" ∉ r) :=
  field_optional_iff_absent_from_required (fun _ => .error BuildError.outOfFuel)
    (some ["a"]) propsAB propsAB [("a", fsReqA), ("b", fsOptB)] rfl "b" fsOptB
    (List.mem_cons_of_mem _ (List.mem_cons_self _ _))

/-- Schema with one required recognized-primitive property. -/
def requiredStrSchema : SchemaNode :=
  SchemaNode.mk (some "M5") none (some ["x"])
    (some [("x", PropSchema.mk none (some "string") none)]) []

/-- C5 counterexample: the required field `x` does not "carry no default at
all" — the code passes `Field(default_factory=str)` on the required branch
exactly as on the optional one. -/
theorem required_field_carries_default_factory :
    make 0 none refTemplateDefault requiredStrSchema =
      .ok (ModelDef.mk (some "M5") none [("x", fsReqA)])
    ∧ FieldSpec.defaultFactory fsReqA ≠ none :=
  ⟨rfl, by simp [fsReqA, FieldSpec.defaultFactory]⟩

/-- C5 (amended): every stored field, optional or required, carries
`default_factory` equal to its annotation's own constructor — the zero-value
constructor for primitives, the nested model class for `$ref` and
array-of-`$ref` fields, and Python `None` for the silently stored
unknown-type field. -/
theorem default_factory_matches_factory
    (nested : String → Except BuildError PyModel) (required : Option (List String))
    (allProps props : List (String × PropSchema)) (fields : List (String × FieldSpec))
    (h : makeLoop nested required allProps props = .ok fields)
    (field : String) (fs : FieldSpec) (hmem : (field, fs) ∈ fields) :
    FieldSpec.defaultFactory fs = FieldSpec.ann fs :=
  (makeLoop_ok_mem_facts nested required allProps props fields h field fs hmem).2.1

/-- C5 witness: the required field `a` of `propsAB` carries its constructor
as default factory. -/
theorem default_factory_matches_factory_witness :
    FieldSpec.defaultFactory fsReqA = FieldSpec.ann fsReqA :=
  default_factory_matches_factory (fun _ => .error BuildError.outOfFuel)
    (some ["a"]) propsAB propsAB [("a", fsReqA), ("b", fsOptB)] rfl "a" fsReqA
    (List.mem_cons_self _ _)

/-- Schema with one optional recognized-primitive property. -/
def optionalStrSchema : SchemaNode :=
  SchemaNode.mk (some "M6") none none
    (some [("x", PropSchema.mk none (some "string") none)]) []

/-- The field stored for the optional string property `x`. -/
def fsOptX : FieldSpec :=
  FieldSpec.mk (some (Factory.prim Prim.str)) true (some (Factory.prim Prim.str)) none

/-- C6 counterexample: the primitive field `x` is not given its own name as
alias — `make` passes `self.raw_fields.get('title')`, here Python `None`,
so the stored alias is empty rather than the field name. -/
theorem primitive_field_alias_not_field_name :
    make 0 none refTemplateDefault optionalStrSchema =
      .ok (ModelDef.mk (some "M6") none [("x", fsOptX)])
    ∧ FieldSpec.aliasArg fsOptX ≠ some (AliasV.s "x") :=
  ⟨rfl, by simp [fsOptX, FieldSpec.aliasArg]⟩

/-- C6 (amended): the alias is determined by the property's shape.  A
property taking the primitive path — no `$ref` key and a `type` keyword that
does not resolve to `list` — always gets `self.raw_fields.get('title')` as
its alias: Python `None` unless the schema declares a property literally
named `title`, in which case that property's schema dictionary is passed.
Every other property that stores a field ( `$ref` and array-of-`$ref`, the
two `_make_nested` paths) always gets the field's own name. -/
theorem alias_determined_by_path
    (nested : String → Except BuildError PyModel) (required : Option (List String))
    (allProps : List (String × PropSchema)) (field : String) (ps : PropSchema)
    (fs : FieldSpec)
    (h : procProp nested required allProps field ps = .ok (some fs)) :
    FieldSpec.aliasArg fs =
      if PropSchema.ref ps = none ∧ typesGet (PropSchema.ty ps) ≠ some Prim.list
      then Option.map AliasV.propSchema (List.lookup "title" allProps)
      else some (AliasV.s field) := by
  unfold procProp at h
  cases hr : PropSchema.ref ps with
  | some modelName =>
    simp only [hr] at h
    cases hn : nested modelName with
    | error e => simp only [hn] at h; exact absurd h (by simp)
    | ok m =>
      simp only [hn] at h
      obtain ⟨_, _, _, h4⟩ := mkField_ok (match_mkField_ok h)
      rw [h4]
      simp [hr]
  | none =>
    simp only [hr] at h
    cases ht : typesGet (PropSchema.ty ps) with
    | none =>
      simp only [ht] at h
      obtain ⟨_, _, _, h4⟩ := mkField_ok (match_mkField_ok h)
      rw [h4]
      simp [hr, ht]
    | some p =>
      cases p with
      | str =>
        simp only [ht] at h
        obtain ⟨_, _, _, h4⟩ := mkField_ok (match_mkField_ok h)
        rw [h4]
        simp [hr, ht]
      | int =>
        simp only [ht] at h
        obtain ⟨_, _, _, h4⟩ := mkField_ok (match_mkField_ok h)
        rw [h4]
        simp [hr, ht]
      | float =>
        simp only [ht] at h
        obtain ⟨_, _, _, h4⟩ := mkField_ok (match_mkField_ok h)
        rw [h4]
        simp [hr, ht]
      | bool =>
        simp only [ht] at h
        obtain ⟨_, _, _, h4⟩ := mkField_ok (match_mkField_ok h)
        rw [h4]
        simp [hr, ht]
      | list =>
        simp only [ht] at h
        cases hi : PropSchema.items ps with
        | none => simp only [hi] at h; exact absurd h (by simp)
        | some items2 =>
          simp only [hi] at h
          cases hr2 : PropSchema.ref items2 with
          | none => simp only [hr2] at h; exact absurd h (by simp)
          | some modelName =>
            simp only [hr2] at h
            cases hn : nested modelName with
            | error e => simp only [hn] at h; exact absurd h (by simp)
            | ok m =>
              simp only [hn] at h
              obtain ⟨_, _, _, h4⟩ := mkField_ok (match_mkField_ok h)
              rw [h4]
              simp [hr, ht]

/-- C6 witness: the primitive property `b` of `propsAB` takes the then
branch, and the stored alias is the title lookup (here empty), not the field
name. -/
theorem alias_determined_by_path_witness :
    FieldSpec.aliasArg fsOptB =
      if PropSchema.ref (PropSchema.mk none (some "string") none) = none
         ∧ typesGet (PropSchema.ty (PropSchema.mk none (some "string") none)) ≠ some Prim.list
      then Option.map AliasV.propSchema (List.lookup "title" propsAB)
      else some (AliasV.s "b") :=
  alias_determined_by_path (fun _ => .error BuildError.outOfFuel) (some ["a"])
    propsAB "b" (PropSchema.mk none (some "string") none) fsOptB rfl

/-- Schema with an array-of-string property followed by an integer
property. -/
def arrayNoRefSchema : SchemaNode :=
  SchemaNode.mk (some "M7") none none
    (some [("xs", PropSchema.mk none (some "array") (some (PropSchema.mk none (some "string") none))),
           ("y", PropSchema.mk none (some "integer") none)]) []

/-- The field stored for the integer property `y`. -/
def fsOptY : FieldSpec :=
  FieldSpec.mk (some (Factory.prim Prim.int)) true (some (Factory.prim Prim.int)) none

/-- C7 counterexample: the array property `xs`, whose `items` has no `$ref`,
raises nothing and is silently dropped — the build succeeds and the resulting
model has no `xs` field at all. -/
theorem array_without_ref_items_silently_dropped :
    make 0 none refTemplateDefault arrayNoRefSchema =
      .ok (ModelDef.mk (some "M7") none [("y", fsOptY)])
    ∧ List.lookup "xs" [("y", fsOptY)] = none :=
  ⟨rfl, rfl⟩

/-- C7 (amended): an array-typed property whose `items` dictionary carries no
`$ref` falls through both branches of the loop body — no exception, no stored
field: the loop continues exactly as if the property were not there. -/
theorem array_nonref_items_skipped
    (nested : String → Except BuildError PyModel) (required : Option (List String))
    (allProps : List (String × PropSchema)) (field : String) (ps items2 : PropSchema)
    (rest : List (String × PropSchema))
    (h1 : PropSchema.ref ps = none) (h2 : typesGet (PropSchema.ty ps) = some Prim.list)
    (h3 : PropSchema.items ps = some items2) (h4 : PropSchema.ref items2 = none) :
    makeLoop nested required allProps ((field, ps) :: rest) =
      makeLoop nested required allProps rest := by
  simp only [makeLoop, procProp, h1, h2, h3, h4]

/-- C7 witness: the array-of-string property is skipped at concrete input. -/
theorem array_nonref_items_skipped_witness :
    makeLoop (fun _ => .error BuildError.outOfFuel) none []
        [("xs", PropSchema.mk none (some "array") (some (PropSchema.mk none (some "string") none)))] =
      makeLoop (fun _ => .error BuildError.outOfFuel) none [] [] :=
  array_nonref_items_skipped (fun _ => .error BuildError.outOfFuel) none [] "xs"
    (PropSchema.mk none (some "array") (some (PropSchema.mk none (some "string") none)))
    (PropSchema.mk none (some "string") none) [] rfl rfl rfl rfl

/-- Ref-free, array-free schema with an unrecognized type keyword. -/
def frobSchema : SchemaNode :=
  SchemaNode.mk (some "M8") none none
    (some [("x", PropSchema.mk none (some "frobnicate") none)]) []

/-- C8 counterexample: a schema with no `$ref` and no array-typed property on
which the build nevertheless fails — the optional property with the
unrecognized keyword makes `_make_field` raise `TypeError`, so "build
succeeds" does not hold for every such schema. -/
theorem no_ref_no_array_schema_build_fails :
    make 0 none refTemplateDefault frobSchema = .error BuildError.noneUnionTypeError :=
  rfl

/-- C8 (amended): for every schema whose properties all carry a recognized
non-array primitive type keyword (string, integer, number, float, boolean),
the build succeeds — at any fuel, since no recursion happens — and the
resulting model's field names are exactly the schema's property names in
declaration order. -/
theorem recognized_primitive_schema_builds (fuel : Nat) (base : Option Nat) (rt : String)
    (title ty2 : Option String) (req : Option (List String)) (extra : List (String × Defs))
    (props : List (String × PropSchema))
    (_hnd : (props.map Prod.fst).Nodup)
    (h : ∀ p ∈ props, PropSchema.ref p.2 = none
      ∧ ∃ t pr, PropSchema.ty p.2 = some t ∧ TYPES t = some pr ∧ pr ≠ Prim.list) :
    ∃ fields, make fuel base rt (SchemaNode.mk title ty2 req (some props) extra) =
        .ok (ModelDef.mk title base fields)
      ∧ fields.map Prod.fst = props.map Prod.fst := by
  obtain ⟨fields, hl, hn⟩ :=
    makeLoop_all_prim_ok (makeNested rt fuel (List.lookup rt extra)) req props props h
  refine ⟨fields, ?_, hn⟩
  unfold make
  simp only [SchemaNode.properties, SchemaNode.required, SchemaNode.title, SchemaNode.extra, hl]

/-- C8 witness: a concrete two-primitive schema builds with field names
`a`, `b` in order. -/
theorem recognized_primitive_schema_builds_witness :
    ∃ fields, make 0 none refTemplateDefault
        (SchemaNode.mk (some "W") none (some ["a"]) (some propsAB) []) =
        .ok (ModelDef.mk (some "W") none fields)
      ∧ fields.map Prod.fst = propsAB.map Prod.fst :=
  recognized_primitive_schema_builds 0 none refTemplateDefault (some "W") none (some ["a"])
    [] propsAB (by simp [propsAB])
    (by
      intro p hp
      simp only [propsAB, List.mem_cons, List.mem_singleton] at hp
      rcases hp with h | h | h
      · subst h; exact ⟨rfl, "string", Prim.str, rfl, rfl, by decide⟩
      · subst h; exact ⟨rfl, "string", Prim.str, rfl, rfl, by decide⟩
      · simp at h)

/-- Definition `B` with no properties of its own. -/
def nodeB9 : SchemaNode := SchemaNode.mk (some "B") none none (some []) []

/-- Definition `A` carrying its own definitions table under the default
`ref_template` key, containing `B`. -/
def nodeA9 : SchemaNode :=
  SchemaNode.mk (some "A") none none (some [("y", PropSchema.mk (some "B") none none)])
    [(refTemplateDefault, [("B", nodeB9)])]

/-- Outer definitions table: contains `A` but not `B`. -/
def outerDefs9 : Defs := [("A", nodeA9)]

/-- Schema referencing `A` against `outerDefs9`. -/
def overrideSchema : SchemaNode :=
  SchemaNode.mk (some "M") none none (some [("x", PropSchema.mk (some "A") none none)])
    [(refTemplateDefault, outerDefs9)]

/-- The model built for `B`. -/
def mB9 : PyModel := PyModel.mk (some "B") none []

/-- The field built for property `y` of `A`. -/
def fsY9 : FieldSpec :=
  FieldSpec.mk (some (Factory.model mB9)) true (some (Factory.model mB9)) (some (AliasV.s "y"))

/-- The model built for `A`. -/
def mA9 : PyModel := PyModel.mk (some "A") none [("y", fsY9)]

/-- The field built for property `x` of the top-level schema. -/
def fsX9 : FieldSpec :=
  FieldSpec.mk (some (Factory.model mA9)) true (some (Factory.model mA9)) (some (AliasV.s "x"))

/-- C9 counterexample: the table passed to the nested build is not the outer
table unchanged — `B` is absent from the outer table, yet the inner `$ref` to
`B` resolves, because the right-biased dict merge
`{ref_template: defs} | defs.get(name)` lets the referenced node's own
`ref_template` entry override the outer table. -/
theorem nested_defs_table_overridden :
    make 2 none refTemplateDefault overrideSchema =
      .ok (ModelDef.mk (some "M") none [("x", fsX9)])
    ∧ List.lookup "B" outerDefs9 = none :=
  ⟨rfl, rfl⟩

/-- C9 (amended): `_make_nested` does look the raw `$ref` string up unchanged
and reads definitions from the literal `ref_template` key, but the table
threaded into a nested build is the referenced node's own `ref_template`
entry whenever that node has one, the outer table only otherwise: with an
override in place, an inner `$ref` is resolved against the override table
alone — here failing with the merge `TypeError` even though the outer table
is unconsulted. -/
theorem nested_defs_right_biased_merge (rt : String) (fuel : Nat) (d d2 : Defs)
    (name : String) (node : SchemaNode) (f r : String) (rest : List (String × PropSchema))
    (h1 : List.lookup name d = some node)
    (h2 : List.lookup rt (SchemaNode.extra node) = some d2)
    (h3 : SchemaNode.properties node = some ((f, PropSchema.mk (some r) none none) :: rest))
    (h4 : List.lookup r d2 = none) :
    makeNested rt (fuel + 1) (some d) name = .error BuildError.refMergeTypeError := by
  show makeNestedStep rt (makeNested rt fuel) (some d) name = _
  refine makeNestedStep_ref_error rt (makeNested rt fuel) d name node f r rest _ h1 h3 ?_
  rw [h2]
  exact makeNested_lookup_none rt fuel d2 r h4

/-- C9 witness: a node whose own (empty) definitions entry shadows the outer
table, so the inner reference fails against the override. -/
theorem nested_defs_right_biased_merge_witness :
    makeNested refTemplateDefault 1
        (some [("A", SchemaNode.mk (some "A") none none
          (some [("y", PropSchema.mk (some "B") none none)]) [(refTemplateDefault, [])])])
        "A" = .error BuildError.refMergeTypeError :=
  nested_defs_right_biased_merge refTemplateDefault 0 _ [] "A"
    (SchemaNode.mk (some "A") none none
      (some [("y", PropSchema.mk (some "B") none none)]) [(refTemplateDefault, [])])
    "y" "B" [] rfl rfl rfl rfl

/-- Definitions table for the C10 witness. -/
def itemDefs : Defs :=
  [("Item", SchemaNode.mk (some "Item") none none
    (some [("y", PropSchema.mk none (some "string") none)]) [])]

/-- Schema referencing `Item` once, to be built on a caller-supplied base. -/
def itemSchema : SchemaNode :=
  SchemaNode.mk (some "M") none none (some [("x", PropSchema.mk (some "Item") none none)])
    [(refTemplateDefault, itemDefs)]

/-- The model built for `Item`. -/
def mItem : PyModel :=
  PyModel.mk (some "Item")
    none [("y", FieldSpec.mk (some (Factory.prim Prim.str)) true (some (Factory.prim Prim.str)) none)]

/-- The field built for property `x` of `itemSchema`. -/
def fsItemX : FieldSpec :=
  FieldSpec.mk (some (Factory.model mItem)) true (some (Factory.model mItem)) (some (AliasV.s "x"))

/-- C10: the model `make` returns extends exactly the caller-supplied base
(`create_model(..., __base__=self._base_model, ...)`), while every model
constructed for a `$ref` or array-of-`$ref` property — at any nesting
depth — was created with no `__base__` at all, whatever base the caller
supplied: `_make_nested` never forwards `self._base_model`. -/
theorem only_top_level_model_extends_base (fuel : Nat) (base : Option Nat) (rt : String)
    (schema : SchemaNode) (n : Option String) (b : Option Nat)
    (fields : List (String × FieldSpec))
    (h : make fuel base rt schema = .ok (ModelDef.mk n b fields)) :
    b = base ∧ fieldsBaseNone fields = true := by
  unfold make at h
  split at h
  · exact absurd h (by simp)
  · rename_i props hpr
    split at h
    · exact absurd h (by simp)
    · rename_i flds hml
      simp only [Except.ok.injEq, ModelDef.mk.injEq] at h
      obtain ⟨h1, h2, h3⟩ := h
      refine ⟨h2.symm, ?_⟩
      rw [← h3]
      exact makeLoop_basesNone _ (SchemaNode.required schema) props
        (fun name2 m2 hh => makeNested_basesNone rt fuel _ name2 m2 hh) props flds hml

/-- C10 witness: building `itemSchema` on base token `7` gives a top-level
model on base `7` whose nested `Item` model is base-free. -/
theorem only_top_level_model_extends_base_witness :
    (some 7 : Option Nat) = some 7 ∧ fieldsBaseNone [("x", fsItemX)] = true :=
  only_top_level_model_extends_base 1 (some 7) refTemplateDefault itemSchema
    (some "M") (some 7) [("x", fsItemX)] rfl
